import Mathlib

/-!
Verification of the Tecomat PLC RTC update codec and transport logic
(`tecomat_rtc_update.py`), shallowly embedded in Lean 4.

Bytes are modelled as integers; Python's `& 0xFF` masking of a possibly
negative difference is modelled with `% 256` on `Int` (Euclidean
remainder), which agrees with Python's two's-complement-style masking
for every integer.
-/

namespace Tecomat

/-- Clock value handed to the packet builder: the seven components the
builder reads from the `datetime` argument (`dt.year`, `dt.month`,
`dt.day`, `dt.hour`, `dt.minute`, `dt.second`, and the day of week
`dt.weekday() + 1`). Fields are unconstrained integers; the builder
itself performs the range validation. -/
structure ClockValue where
  year : Int
  month : Int
  day : Int
  hour : Int
  minute : Int
  second : Int
  dow : Int
deriving DecidableEq, Repr

/-- Protocol constant `RTC_COMMAND = 0x63` (set-RTC command byte). -/
def RTC_COMMAND : Int := 0x63

/-- Protocol constant `DATA_LENGTH = 0x08` (length byte of the RTC data block). -/
def DATA_LENGTH : Int := 0x08

/-- Embedding of `TecomatRTC._calculate_checksum`: sum the data bytes,
subtract `0x20`, and mask to 8 bits. Python's `(total - 0x20) & 0xFF`
on an `int` is exactly `(total - 0x20) % 256`. -/
def _calculate_checksum (data_bytes : List Int) : Int :=
  (data_bytes.sum - 0x20) % 256

/-- Error raised by the builder's range validation (`ValueError` in the
source); each constructor names the offending field and carries the
offending value exactly as the source's message text does. -/
inductive RangeError where
  | year (v : Int)
  | month (v : Int)
  | day (v : Int)
  | hour (v : Int)
  | minute (v : Int)
  | second (v : Int)
deriving DecidableEq, Repr

/-- Embedding of `TecomatRTC._build_rtc_packet`: validate the ranges in
source order (year offset 0–99, month 1–12, day 1–31, hour 0–23,
minute 0–59, second 0–59; the day of week is never validated), then
assemble header + command + RTC data block + checksum + trailer. -/
def _build_rtc_packet (cv : ClockValue) : Except RangeError (List Int) :=
  let year := cv.year - 2000
  if ¬(0 ≤ year ∧ year ≤ 99) then .error (.year cv.year)
  else if ¬(1 ≤ cv.month ∧ cv.month ≤ 12) then .error (.month cv.month)
  else if ¬(1 ≤ cv.day ∧ cv.day ≤ 31) then .error (.day cv.day)
  else if ¬(0 ≤ cv.hour ∧ cv.hour ≤ 23) then .error (.hour cv.hour)
  else if ¬(0 ≤ cv.minute ∧ cv.minute ≤ 59) then .error (.minute cv.minute)
  else if ¬(0 ≤ cv.second ∧ cv.second ≤ 59) then .error (.second cv.second)
  else
    let rtc_data : List Int :=
      [DATA_LENGTH, year, cv.month, cv.day, cv.hour, cv.minute, cv.second, cv.dow]
    let checksum := _calculate_checksum rtc_data
    let header : List Int :=
      [0x02, 0x01, 0x02, 0x00, 0x00, 0x11, 0x68, 0x0b, 0x0b, 0x68, 0x00, 0x7d]
    .ok (header ++ [RTC_COMMAND] ++ rtc_data ++ [checksum, 0x16, 0x00])

/-- Validity of a clock value, as the spec states the domains: year
2000–2099, month 1–12, day 1–31, hour 0–23, minute 0–59, second 0–59,
day of week 1–7. -/
def validClock (cv : ClockValue) : Prop :=
  2000 ≤ cv.year ∧ cv.year ≤ 2099 ∧
  1 ≤ cv.month ∧ cv.month ≤ 12 ∧
  1 ≤ cv.day ∧ cv.day ≤ 31 ∧
  0 ≤ cv.hour ∧ cv.hour ≤ 23 ∧
  0 ≤ cv.minute ∧ cv.minute ≤ 59 ∧
  0 ≤ cv.second ∧ cv.second ≤ 59 ∧
  1 ≤ cv.dow ∧ cv.dow ≤ 7

instance (cv : ClockValue) : Decidable (validClock cv) := by
  unfold validClock; infer_instance

/-- The frame the builder produces on the success path, written out
explicitly: 12 header bytes, the command byte, the 8-byte RTC data
block, the checksum, and the 2-byte trailer. -/
def frameOf (cv : ClockValue) : List Int :=
  [0x02, 0x01, 0x02, 0x00, 0x00, 0x11, 0x68, 0x0b, 0x0b, 0x68, 0x00, 0x7d,
   RTC_COMMAND,
   DATA_LENGTH, cv.year - 2000, cv.month, cv.day, cv.hour, cv.minute, cv.second, cv.dow,
   _calculate_checksum
     [DATA_LENGTH, cv.year - 2000, cv.month, cv.day, cv.hour, cv.minute, cv.second, cv.dow],
   0x16, 0x00]

lemma build_eq_frameOf (cv : ClockValue) (h : validClock cv) :
    _build_rtc_packet cv = .ok (frameOf cv) := by
  obtain ⟨h1, h2, h3, h4, h5, h6, h7, h8, h9, h10, h11, h12, h13, h14⟩ := h
  unfold _build_rtc_packet
  split_ifs <;> first | (exfalso; omega) | (simp [frameOf, List.append]; omega)

/-- Embedding of Python's `list.index(a)` for the first-occurrence scan:
index of the first element equal to `a` (the source only calls it when
`a` is known to be present). -/
def pyIndex (l : List Nat) (a : Nat) : Nat :=
  match l with
  | [] => 0
  | b :: t => if b = a then 0 else pyIndex t a + 1

/-- Structured form of the dictionary `_parse_response` returns:
either the success record (with the `e5_position` and length entries)
or one of the two failure records; the too-short record carries the
byte count it reports. -/
inductive ParseResult where
  | ackOK (e5_position : Nat) (length : Nat)
  | tooShort (byteCount : Nat)
  | noAck (length : Nat)
deriving DecidableEq, Repr

/-- The `success` entry of the dictionary `_parse_response` returns. -/
def ParseResult.success : ParseResult → Bool
  | .ackOK _ _ => true
  | _ => false

/-- Embedding of `TecomatRTC._parse_response`: reject buffers shorter
than 6 bytes; otherwise scan for the first occurrence of the `0xE5`
ACK marker anywhere in the buffer; reject if it is absent. -/
def _parse_response (response : List Nat) : ParseResult :=
  if response.length < 6 then .tooShort response.length
  else if 0xE5 ∈ response then .ackOK (pyIndex response 0xE5) response.length
  else .noAck response.length

/-- Session state of the `TecomatRTC` class: the constructor arguments
plus the `sock` attribute, which is `None` until `connect` runs and
after `close` runs. The socket object itself is opaque here. -/
structure TecomatRTC where
  plc_ip : String
  plc_port : Nat
  local_port : Nat
  sock : Option Nat
deriving DecidableEq, Repr

/-- Embedding of `TecomatRTC.close`: if a socket is present, close it
and set the attribute back to `None`; otherwise do nothing. -/
def TecomatRTC.close (st : TecomatRTC) : TecomatRTC :=
  if st.sock.isSome then { st with sock := none } else st

/-- Outcome of the single `recvfrom` call inside `set_rtc` when
`verify` is on: a datagram arrives, the timeout elapses
(`socket.timeout`), or the call raises some other exception. -/
inductive RecvOutcome where
  | reply (data : List Nat)
  | timedOut
  | recvFailed
deriving DecidableEq, Repr

/-- One invocation's I/O outcomes, fixed by the environment: whether
binding the local port succeeds, whether `sendto` succeeds, and what
the receive attempt produces. -/
structure NetEnv where
  bindOk : Bool
  sendOk : Bool
  recv : RecvOutcome
deriving DecidableEq, Repr

/-- Exceptions that can be raised inside the `try` block of
`set_rtc`: the builder's range error, a bind failure from `connect`,
a `sendto` failure, and a non-timeout `recvfrom` failure. -/
inductive PyError where
  | range (e : RangeError)
  | bindFailed
  | sendFailed
  | recvRaised
deriving DecidableEq, Repr

/-- Semantics of the `try` block of `TecomatRTC.set_rtc`, with
exceptions propagating as `.error`: connect if no socket is bound,
build the packet, send it, and, when `verify` is on, wait for the
reply and report the parse's `success` flag; `socket.timeout` is
caught locally and yields `False`. -/
def set_rtc_try (st : TecomatRTC) (cv : ClockValue) (verify : Bool) (env : NetEnv) :
    Except PyError Bool :=
  if st.sock.isNone && !env.bindOk then .error .bindFailed
  else
    match _build_rtc_packet cv with
    | .error e => .error (.range e)
    | .ok _packet =>
      if !env.sendOk then .error .sendFailed
      else if verify then
        match env.recv with
        | .reply data => if (_parse_response data).success then .ok true else .ok false
        | .timedOut => .ok false
        | .recvFailed => .error .recvRaised
      else .ok true

/-- Embedding of `TecomatRTC.set_rtc`'s result: the `try` block's
result, with the catch-all `except Exception` handler turning any
propagated exception into `False`. -/
def set_rtc (st : TecomatRTC) (cv : ClockValue) (verify : Bool) (env : NetEnv) : Bool :=
  match set_rtc_try st cv verify env with
  | .ok b => b
  | .error _ => false

/-- Property of a range error: it names a field of the given clock
value that really is outside its domain and carries that field's
value (for the year, the full year as in the source's message). -/
def namesViolation (cv : ClockValue) : RangeError → Prop
  | .year v => v = cv.year ∧ ¬(2000 ≤ v ∧ v ≤ 2099)
  | .month v => v = cv.month ∧ ¬(1 ≤ v ∧ v ≤ 12)
  | .day v => v = cv.day ∧ ¬(1 ≤ v ∧ v ≤ 31)
  | .hour v => v = cv.hour ∧ ¬(0 ≤ v ∧ v ≤ 23)
  | .minute v => v = cv.minute ∧ ¬(0 ≤ v ∧ v ≤ 59)
  | .second v => v = cv.second ∧ ¬(0 ≤ v ∧ v ≤ 59)

lemma pyIndex_spec (l : List Nat) (a : Nat) :
    a ∈ l → l.get? (pyIndex l a) = some a ∧ ∀ j, j < pyIndex l a → l.get? j ≠ some a := by
  induction l with
  | nil => intro h; cases h
  | cons b t ih =>
    intro h
    by_cases hb : b = a
    · subst hb
      constructor
      · simp [pyIndex]
      · intro j hj
        simp [pyIndex] at hj
    · have ht : a ∈ t := by
        rcases List.mem_cons.mp h with h1 | h1
        · exact absurd h1.symm hb
        · exact h1
      obtain ⟨ih1, ih2⟩ := ih ht
      constructor
      · simpa [pyIndex, hb] using ih1
      · intro j hj
        rw [pyIndex] at hj
        simp only [if_neg hb] at hj
        match j with
        | 0 => simpa using fun e => hb e
        | j + 1 =>
          simpa using ih2 j (by omega)

/-- Claim C1: for every valid ClockValue (year 2000-2099, month 1-12, day 1-31,
hour 0-23, minute 0-59, second 0-59, day-of-week 1-7), the builder produces a
frame of exactly 24 byte values whose bytes 0-11 are the fixed header
02 01 02 00 00 11 68 0B 0B 68 00 7D, byte 12 is 0x63, bytes 13-20 are
[0x08, year-2000, month, day, hour, minute, second, dow], byte 21 equals
(sum of bytes 13..20 - 0x20) mod 256, and bytes 22-23 are 16 00. -/
theorem build_valid_frame (cv : ClockValue) (h : validClock cv) :
    ∃ frame, _build_rtc_packet cv = .ok frame ∧
      frame.length = 24 ∧
      frame.take 12 = [0x02, 0x01, 0x02, 0x00, 0x00, 0x11, 0x68, 0x0b, 0x0b, 0x68, 0x00, 0x7d] ∧
      frame.get? 12 = some 0x63 ∧
      (frame.drop 13).take 8 =
        [0x08, cv.year - 2000, cv.month, cv.day, cv.hour, cv.minute, cv.second, cv.dow] ∧
      frame.get? 21 = some ((((frame.drop 13).take 8).sum - 0x20) % 256) ∧
      frame.drop 22 = [0x16, 0x00] ∧
      ∀ b ∈ frame, 0 ≤ b ∧ b < 256 := by
  refine ⟨frameOf cv, build_eq_frameOf cv h, rfl, rfl, rfl, rfl, rfl, rfl, ?_⟩
  obtain ⟨h1, h2, h3, h4, h5, h6, h7, h8, h9, h10, h11, h12, h13, h14⟩ := h
  intro b hb
  simp only [frameOf, _calculate_checksum, RTC_COMMAND, DATA_LENGTH, List.sum_cons,
    List.sum_nil, List.mem_cons, List.not_mem_nil, or_false] at hb
  rcases hb with rfl | rfl | rfl | rfl | rfl | rfl | rfl | rfl | rfl | rfl | rfl | rfl |
    rfl | rfl | rfl | rfl | rfl | rfl | rfl | rfl | rfl | rfl | rfl | rfl <;> omega

/-- Witness for C1 at the concrete clock value 2025-10-17 14:30:00, dow 5. -/
theorem build_valid_frame_witness :
    ∃ frame, _build_rtc_packet ⟨2025, 10, 17, 14, 30, 0, 5⟩ = .ok frame ∧
      frame.length = 24 ∧
      frame.take 12 = [0x02, 0x01, 0x02, 0x00, 0x00, 0x11, 0x68, 0x0b, 0x0b, 0x68, 0x00, 0x7d] ∧
      frame.get? 12 = some 0x63 ∧
      (frame.drop 13).take 8 = [0x08, (2025 : Int) - 2000, 10, 17, 14, 30, 0, 5] ∧
      frame.get? 21 = some ((((frame.drop 13).take 8).sum - 0x20) % 256) ∧
      frame.drop 22 = [0x16, 0x00] ∧
      ∀ b ∈ frame, 0 ≤ b ∧ b < 256 :=
  build_valid_frame ⟨2025, 10, 17, 14, 30, 0, 5⟩ (by decide)

/-- Claim C4: encoding the ClockValue 2025-10-17 14:30:00 with day-of-week 5
yields the RTC data block [0x08, 25, 10, 17, 14, 30, 0, 5], checksum 0x4D, and
the exact 24-byte frame
02 01 02 00 00 11 68 0B 0B 68 00 7D 63 08 19 0A 11 0E 1E 00 05 4D 16 00. -/
theorem build_concrete_frame_2025_10_17 :
    _build_rtc_packet ⟨2025, 10, 17, 14, 30, 0, 5⟩ =
      .ok [0x02, 0x01, 0x02, 0x00, 0x00, 0x11, 0x68, 0x0b, 0x0b, 0x68, 0x00, 0x7d,
           0x63, 0x08, 0x19, 0x0a, 0x11, 0x0e, 0x1e, 0x00, 0x05, 0x4d, 0x16, 0x00] ∧
    _calculate_checksum [0x08, 25, 10, 17, 14, 30, 0, 5] = 0x4d ∧
    List.length [0x02, 0x01, 0x02, 0x00, 0x00, 0x11, 0x68, 0x0b, 0x0b, 0x68, 0x00, 0x7d,
      0x63, 0x08, 0x19, 0x0a, 0x11, 0x0e, 0x1e, 0x00, 0x05, 0x4d, 0x16, (0x00 : Int)] = 24 := by
  refine ⟨rfl, by decide, rfl⟩

/-- Claim C5: for every valid ClockValue the checksum byte is exactly
(sum of the 8 RTC-data-block bytes - 0x20) mod 256, a value in [0, 256):
modulo-256 wraparound, never clamped or negative. -/
theorem checksum_wraparound (cv : ClockValue) (h : validClock cv) :
    ∃ frame c, _build_rtc_packet cv = .ok frame ∧
      frame.get? 21 = some c ∧
      c = _calculate_checksum ((frame.drop 13).take 8) ∧
      c = (((frame.drop 13).take 8).sum - 0x20) % 256 ∧
      0 ≤ c ∧ c < 256 := by
  refine ⟨frameOf cv,
    _calculate_checksum
      [DATA_LENGTH, cv.year - 2000, cv.month, cv.day, cv.hour, cv.minute, cv.second, cv.dow],
    build_eq_frameOf cv h, rfl, rfl, rfl, ?_, ?_⟩
  · exact Int.emod_nonneg _ (by norm_num)
  · exact Int.emod_lt_of_pos _ (by norm_num)

/-- Witness for C5 at the minimal valid clock value 2000-01-01 00:00:00 dow 1,
whose data block sums to 11 < 0x20, so the checksum wraps to 235. -/
theorem checksum_wraparound_witness :
    validClock ⟨2000, 1, 1, 0, 0, 0, 1⟩ ∧
    (∃ frame c, _build_rtc_packet ⟨2000, 1, 1, 0, 0, 0, 1⟩ = .ok frame ∧
      frame.get? 21 = some c ∧
      c = _calculate_checksum ((frame.drop 13).take 8) ∧
      c = (((frame.drop 13).take 8).sum - 0x20) % 256 ∧
      0 ≤ c ∧ c < 256) ∧
    _calculate_checksum [0x08, 0, 1, 1, 0, 0, 0, 1] = 235 :=
  ⟨by decide, checksum_wraparound _ (by decide), by decide⟩

/-- Claim C8: the day field is validated only against 1-31 and never against
the calendar: every ClockValue with all fields in range encodes successfully,
including calendar-impossible dates such as February 30. -/
theorem build_day_not_calendar_validated (cv : ClockValue) (h : validClock cv) :
    ∃ frame, _build_rtc_packet cv = .ok frame :=
  ⟨frameOf cv, build_eq_frameOf cv h⟩

/-- Witness for C8 at the calendar-impossible date 2025-02-30. -/
theorem build_day_not_calendar_validated_witness :
    validClock ⟨2025, 2, 30, 0, 0, 0, 6⟩ ∧
    ∃ frame, _build_rtc_packet ⟨2025, 2, 30, 0, 0, 0, 6⟩ = .ok frame :=
  ⟨by decide, build_day_not_calendar_validated _ (by decide)⟩

/-- Claim C3 counterexample: a ClockValue whose day-of-week (0) is outside
1-7 while every other field is in range is encoded successfully — the builder
performs no day-of-week range check, so the claim as stated fails. -/
theorem build_bad_dow_still_succeeds :
    ¬(1 ≤ (0 : Int) ∧ (0 : Int) ≤ 7) ∧
    ∃ frame, _build_rtc_packet ⟨2025, 1, 1, 0, 0, 0, 0⟩ = .ok frame ∧ frame.get? 20 = some 0 :=
  ⟨by decide, frameOf ⟨2025, 1, 1, 0, 0, 0, 0⟩, rfl, rfl⟩

/-- Claim C3 (amended): for every ClockValue with year, month, day, hour,
minute, or second outside its domain, the builder fails with a RangeError
naming the offending field and its value and produces no frame; the
day-of-week field is not validated. -/
theorem build_invalid_field_fails (cv : ClockValue)
    (h : ¬(2000 ≤ cv.year ∧ cv.year ≤ 2099) ∨ ¬(1 ≤ cv.month ∧ cv.month ≤ 12) ∨
         ¬(1 ≤ cv.day ∧ cv.day ≤ 31) ∨ ¬(0 ≤ cv.hour ∧ cv.hour ≤ 23) ∨
         ¬(0 ≤ cv.minute ∧ cv.minute ≤ 59) ∨ ¬(0 ≤ cv.second ∧ cv.second ≤ 59)) :
    ∃ e, _build_rtc_packet cv = .error e ∧ namesViolation cv e := by
  simp only [_build_rtc_packet]
  split_ifs <;>
    first
    | (refine ⟨_, rfl, ?_⟩; exact ⟨rfl, by omega⟩)
    | (exfalso; omega)

/-- Witness for the amended C3 at year 1999, outside 2000-2099. -/
theorem build_invalid_field_fails_witness :
    (¬(2000 ≤ (1999 : Int) ∧ (1999 : Int) ≤ 2099) ∨ ¬(1 ≤ (1 : Int) ∧ (1 : Int) ≤ 12) ∨
     ¬(1 ≤ (1 : Int) ∧ (1 : Int) ≤ 31) ∨ ¬(0 ≤ (0 : Int) ∧ (0 : Int) ≤ 23) ∨
     ¬(0 ≤ (0 : Int) ∧ (0 : Int) ≤ 59) ∨ ¬(0 ≤ (0 : Int) ∧ (0 : Int) ≤ 59)) ∧
    ∃ e, _build_rtc_packet ⟨1999, 1, 1, 0, 0, 0, 1⟩ = .error e ∧
      namesViolation ⟨1999, 1, 1, 0, 0, 0, 1⟩ e :=
  ⟨Or.inl (by decide), build_invalid_field_fails ⟨1999, 1, 1, 0, 0, 0, 1⟩ (Or.inl (by decide))⟩

/-- Claim C7: the builder is deterministic — its output depends only on the
seven ClockValue fields, and encoding the same value any number of times
yields identical results. -/
theorem build_deterministic (cv₁ cv₂ : ClockValue)
    (h : cv₁.year = cv₂.year ∧ cv₁.month = cv₂.month ∧ cv₁.day = cv₂.day ∧
         cv₁.hour = cv₂.hour ∧ cv₁.minute = cv₂.minute ∧ cv₁.second = cv₂.second ∧
         cv₁.dow = cv₂.dow) :
    _build_rtc_packet cv₁ = _build_rtc_packet cv₂ ∧
    ∀ n, (List.replicate n cv₁).map _build_rtc_packet =
      List.replicate n (_build_rtc_packet cv₁) := by
  have hcv : cv₁ = cv₂ := by
    cases cv₁; cases cv₂; simp_all
  subst hcv
  exact ⟨rfl, fun n => by simp⟩

/-- Witness for C7 at the concrete clock value 2025-10-17 14:30:00, dow 5. -/
theorem build_deterministic_witness :
    _build_rtc_packet ⟨2025, 10, 17, 14, 30, 0, 5⟩ =
      _build_rtc_packet ⟨2025, 10, 17, 14, 30, 0, 5⟩ ∧
    ∀ n, (List.replicate n (⟨2025, 10, 17, 14, 30, 0, 5⟩ : ClockValue)).map _build_rtc_packet =
      List.replicate n (_build_rtc_packet ⟨2025, 10, 17, 14, 30, 0, 5⟩) :=
  build_deterministic _ _ ⟨rfl, rfl, rfl, rfl, rfl, rfl, rfl⟩

/-- Claim C2: the response parser is fully characterized — buffers shorter
than 6 bytes are rejected as too short with the byte count (the length check
takes precedence over any 0xE5 content); otherwise a buffer containing 0xE5
is acknowledged at the zero-based index of its first occurrence; otherwise
it is rejected for lack of an ACK marker. -/
theorem parse_response_characterization (response : List Nat) :
    (response.length < 6 → _parse_response response = .tooShort response.length) ∧
    (6 ≤ response.length → 0xE5 ∈ response →
      _parse_response response = .ackOK (pyIndex response 0xE5) response.length ∧
      response.get? (pyIndex response 0xE5) = some 0xE5 ∧
      ∀ j, j < pyIndex response 0xE5 → response.get? j ≠ some 0xE5) ∧
    (6 ≤ response.length → 0xE5 ∉ response →
      _parse_response response = .noAck response.length) := by
  refine ⟨fun h => ?_, fun h6 hm => ?_, fun h6 hm => ?_⟩
  · rw [_parse_response, if_pos h]
  · have hs := pyIndex_spec response 0xE5 hm
    exact ⟨by rw [_parse_response, if_neg (by omega), if_pos hm], hs.1, hs.2⟩
  · rw [_parse_response, if_neg (by omega), if_neg hm]

/-- Witness for C2: a short buffer containing 0xE5 is still rejected as too
short; a 6-byte buffer with 0xE5 at index 2 is acknowledged at position 2;
a 6-byte buffer without 0xE5 is rejected for lack of an ACK marker. -/
theorem parse_response_witness :
    _parse_response [0xE5, 0xE5, 0xE5] = .tooShort 3 ∧
    _parse_response [0, 0, 0xE5, 1, 1, 1] = .ackOK 2 6 ∧
    _parse_response [0, 0, 0, 0, 0, 0] = .noAck 6 := by
  refine ⟨?_, ?_, ?_⟩
  · exact (parse_response_characterization [0xE5, 0xE5, 0xE5]).1 (by decide)
  · have h := (parse_response_characterization [0, 0, 0xE5, 1, 1, 1]).2.1 (by decide) (by decide)
    rw [h.1]; rfl
  · exact (parse_response_characterization [0, 0, 0, 0, 0, 0]).2.2 (by decide) (by decide)

/-- Claim C9: close is idempotent — closing an already-closed session is a
no-op, closing twice leaves the session exactly as closing once, and after
a close the socket is gone. -/
theorem close_idempotent (st : TecomatRTC) :
    (st.sock = none → st.close = st) ∧
    st.close.close = st.close ∧
    (st.close).sock = none := by
  refine ⟨?_, ?_, ?_⟩ <;> rcases hs : st.sock with _ | s <;>
    simp [TecomatRTC.close, hs]

/-- Witness for C9: closing a fresh (socketless) session is a no-op, and a
double close equals a single close on a bound session. -/
theorem close_idempotent_witness :
    TecomatRTC.close ⟨"192.168.11.50", 61682, 64481, none⟩ =
      ⟨"192.168.11.50", 61682, 64481, none⟩ ∧
    TecomatRTC.close (TecomatRTC.close ⟨"192.168.11.50", 61682, 64481, some 1⟩) =
      TecomatRTC.close ⟨"192.168.11.50", 61682, 64481, some 1⟩ :=
  ⟨(close_idempotent _).1 rfl, (close_idempotent _).2.1⟩

/-- Claim C6: with bind, build and send all succeeding, `set_rtc` with
verify on returns true exactly when a reply arrived and parsed as
acknowledged (rejected parses, timeouts and receive failures all give
false), and with verify off it returns true regardless of the receive
outcome. -/
theorem set_rtc_verify_semantics (st : TecomatRTC) (cv : ClockValue) (env : NetEnv)
    (hbind : st.sock.isSome = true ∨ env.bindOk = true)
    (hbuild : ∃ pkt, _build_rtc_packet cv = .ok pkt)
    (hsend : env.sendOk = true) :
    (set_rtc st cv true env = true ↔
      ∃ data, env.recv = .reply data ∧ (_parse_response data).success = true) ∧
    set_rtc st cv false env = true := by
  obtain ⟨pkt, hpkt⟩ := hbuild
  have hb : (st.sock.isNone && !env.bindOk) = false := by
    rcases hbind with h | h
    · rcases hs : st.sock with _ | s
      · rw [hs] at h; simp at h
      · simp [hs]
    · simp [h]
  constructor
  · rcases hr : env.recv with data | _ | _
    · by_cases hp : (_parse_response data).success = true
      · simp [set_rtc, set_rtc_try, hb, hpkt, hsend, hr, hp]
      · simp [set_rtc, set_rtc_try, hb, hpkt, hsend, hr, hp]
    · simp [set_rtc, set_rtc_try, hb, hpkt, hsend, hr]
    · simp [set_rtc, set_rtc_try, hb, hpkt, hsend, hr]
  · simp [set_rtc, set_rtc_try, hb, hpkt, hsend]

/-- Witness for C6: a fresh session, a valid clock value, a successful bind
and send, and an 8-byte reply containing 0xE5 give a true result. -/
theorem set_rtc_verify_witness :
    set_rtc ⟨"192.168.11.50", 61682, 64481, none⟩ ⟨2025, 10, 17, 14, 30, 0, 5⟩ true
      ⟨true, true, .reply [0x02, 0x01, 0x02, 0x00, 0x00, 0x01, 0xE5, 0x00]⟩ = true :=
  ((set_rtc_verify_semantics _ _ _ (Or.inr rfl)
      ⟨frameOf ⟨2025, 10, 17, 14, 30, 0, 5⟩, build_eq_frameOf _ (by decide)⟩ rfl).1).mpr
    ⟨[0x02, 0x01, 0x02, 0x00, 0x00, 0x01, 0xE5, 0x00], rfl, by decide⟩

/-- Claim C10: `set_rtc` never propagates an exception — every error the
try-block semantics can raise (bind failure, builder range error, send
failure, receive failure) is converted to the boolean result false, so the
operation totalizes to a bool for every input and I/O outcome. -/
theorem set_rtc_never_raises (st : TecomatRTC) (cv : ClockValue) (verify : Bool)
    (env : NetEnv) :
    (∀ e, set_rtc_try st cv verify env = .error e → set_rtc st cv verify env = false) ∧
    (st.sock = none → env.bindOk = false → set_rtc st cv verify env = false) ∧
    (∀ e, _build_rtc_packet cv = .error e → set_rtc st cv verify env = false) ∧
    (env.sendOk = false → set_rtc st cv verify env = false) := by
  refine ⟨fun e he => by simp [set_rtc, he], fun hs hbf => ?_, fun e he => ?_, fun hsend => ?_⟩
  · simp [set_rtc, set_rtc_try, hs, hbf]
  · by_cases hb : (st.sock.isNone && !env.bindOk) = true
    · simp [set_rtc, set_rtc_try, hb]
    · simp [set_rtc, set_rtc_try, hb, he]
  · by_cases hb : (st.sock.isNone && !env.bindOk) = true
    · simp [set_rtc, set_rtc_try, hb]
    · rcases hbuild : _build_rtc_packet cv with e | pkt
      · simp [set_rtc, set_rtc_try, hb, hbuild]
      · simp [set_rtc, set_rtc_try, hb, hbuild, hsend]

/-- Witness for C10: a bind failure on a fresh session yields false. -/
theorem set_rtc_never_raises_witness :
    set_rtc ⟨"192.168.11.50", 61682, 64481, none⟩ ⟨2025, 10, 17, 14, 30, 0, 5⟩ true
      ⟨false, true, .timedOut⟩ = false :=
  (set_rtc_never_raises _ _ _ _).2.1 rfl rfl

end Tecomat
